import Mathlib

/-!
Shallow embedding of `scripts/tm_shape_queue.py`: the Tofino TM queue/port
shaping and telemetry monitor.  Python integers become `Int`; the optional
CLI arguments become `Option`; the hardware (BFRT tables) is modelled as
explicit oracles passed into the functions that read or write it; Python
exceptions become explicit outcome values.  Each definition is a direct
transliteration of the corresponding function or code region of the script.
-/

namespace TmShapeQueue

/-- Embedding of `_rate_to_tm_units_bps` (tm_shape_queue.py, lines 78-81):
`return max(0, int(rate_bps // 1_000))`.  Python `//` is floor division,
which on `Int` is `Int.fdiv`. -/
def _rate_to_tm_units_bps (rate_bps : Int) : Int :=
  max 0 (Int.fdiv rate_bps 1000)

/-- Embedding of `_map_queue_key` (tm_shape_queue.py, lines 103-116).
The Python body is:
`if not egress_qids: return local_queue` /
`if 0 <= local_queue < len(egress_qids): return int(egress_qids[local_queue])`
(the `try/except` around `int(...)` falls back to `local_queue`; on actual
integer list elements `int` never raises, and `List.getD` with default
`local_queue` mirrors that fallback) / `return local_queue`. -/
def _map_queue_key (local_queue : Int) (egress_qids : List Int) : Int :=
  if egress_qids.isEmpty then local_queue
  else if 0 ≤ local_queue ∧ local_queue < (egress_qids.length : Int) then
    egress_qids.getD local_queue.toNat local_queue
  else local_queue

/-! ### The output sink (`TeeWriter`, lines 7-38)

We track only what the claims need: whether the log file is currently open,
and how many times the underlying file handle's `close()` has actually been
performed (to express "closed exactly once"/"never closed twice"). -/

/-- State of the `TeeWriter` log sink: `log_file` is the open handle (if any)
and `closes` counts the `self.log_file.close()` calls performed so far. -/
structure TeeWriter where
  log_file : Option Unit
  closes : Nat
deriving Repr, DecidableEq

/-- Embedding of `TeeWriter.close` (lines 31-38): if a log file is open it is
closed (after the footer write) and the handle is set to `None`; otherwise
the call is a no-op. -/
def TeeWriter.close (w : TeeWriter) : TeeWriter :=
  match w.log_file with
  | some _ => { log_file := none, closes := w.closes + 1 }
  | none => w

/-- A freshly opened `TeeWriter` with a log file (lines 13-15). -/
def TeeWriter.opened : TeeWriter :=
  { log_file := some (), closes := 0 }

/-! ### The single-queue watch loop (lines 406-475) -/

/-- One reading of the counters consumed by a single-queue watch iteration
(lines 417-420 and 456-457): the port egress drop counter and the watched
queue's drop counter. -/
structure Reading where
  eg_drop : Int
  q_drop : Int
deriving Repr, DecidableEq

/-- One emitted single-queue watch row (lines 464-469), restricted to the
cumulative/delta drop fields the claims are about. -/
structure Row where
  eg_drop : Int
  d_eg_drop : Int
  q_drop : Int
  d_q_drop : Int
deriving Repr, DecidableEq

/-- The delta computation of one single-queue watch iteration
(lines 420-422 and 457-463).  `prev_q` models the one-element list
`prev_q_drops` of the single-queue branch:
`d_eg_drop = 0 if prev_eg_drop is None else max(0, eg_drop - prev_eg_drop)`,
`d_q_drop = 0` on the first iteration, else `max(0, q_drop - prev_q_drops[0])`;
both previous values are then replaced by the current readings. -/
def singleStepDeltas (prev_eg prev_q : Option Int) (r : Reading) :
    Row × Option Int × Option Int :=
  let d_eg := match prev_eg with
    | none => 0
    | some p => max 0 (r.eg_drop - p)
  let dq := match prev_q with
    | none => ((0 : Int), some r.q_drop)
    | some p => (max 0 (r.q_drop - p), some r.q_drop)
  (⟨r.eg_drop, d_eg, r.q_drop, dq.1⟩, some r.eg_drop, dq.2)

/-- What the environment does to iteration `i` of the watch loop:
  * `ok r` — both counter reads succeed with reading `r` and the sleep
    completes undisturbed;
  * `stop` — the duration bound fires at the top-of-loop check (line 412);
  * `readError` — `_get_counter`/`_get_port_stat` raises during this
    iteration's reads (lines 417-418, 456): there is no `try` in the loop
    body, so the exception propagates;
  * `interrupt r` — the reads succeed and the row is emitted, but a
    `KeyboardInterrupt` arrives during `time.sleep(interval)` (line 472)
    and propagates. -/
inductive IterEvent where
  | ok (r : Reading)
  | stop
  | readError
  | interrupt (r : Reading)
deriving DecidableEq

/-- How a watch run ended: `completed` = a `break` at a bound check
(duration or iteration count), `crashed` = a counter-read exception
propagated, `cancelled` = a `KeyboardInterrupt` propagated. -/
inductive Outcome where
  | completed
  | crashed
  | cancelled
deriving Repr, DecidableEq

/-- The watch loop of lines 410-472 in single-queue mode, driven by the
environment `env`.  Arguments: current iteration index `i`, remaining
iterations before the `i >= iterations` bound fires (line 414), and the
`prev_eg_drop` / `prev_q_drops` state (lines 408-409).  Returns the emitted
rows and how the loop ended.  A `readError` ends the loop before the row is
emitted; an `interrupt` ends it after. -/
def watchIterSingle (env : Nat → IterEvent) :
    Nat → Nat → Option Int → Option Int → List Row × Outcome
  | _, 0, _, _ => ([], Outcome.completed)
  | i, n + 1, prev_eg, prev_q =>
    match env i with
    | IterEvent.stop => ([], Outcome.completed)
    | IterEvent.readError => ([], Outcome.crashed)
    | IterEvent.interrupt r =>
      ([(singleStepDeltas prev_eg prev_q r).1], Outcome.cancelled)
    | IterEvent.ok r =>
      let s := singleStepDeltas prev_eg prev_q r
      let rest := watchIterSingle env (i + 1) n s.2.1 s.2.2
      (s.1 :: rest.1, rest.2)

/-- Result of a whole single-queue watch run: the emitted rows, the loop
outcome, and the final state of the output sink. -/
structure RunResult where
  rows : List Row
  outcome : Outcome
  writer : TeeWriter
deriving Repr, DecidableEq

/-- A full watch run (lines 406-475) with an iteration bound: the loop starts
with `prev_eg_drop = prev_q_drops = None`, and `_writer.close()` (line 475)
executes only when the loop exits via `break`; a propagating exception
(counter-read error or `KeyboardInterrupt`) skips it, since the call is not
in a `finally` block. -/
def watchRunSingle (env : Nat → IterEvent) (iterations : Nat) : RunResult :=
  let res := watchIterSingle env 0 iterations none none
  { rows := res.1
    outcome := res.2
    writer := match res.2 with
      | Outcome.completed => TeeWriter.close TeeWriter.opened
      | _ => TeeWriter.opened }

/-- An environment in which every read succeeds, with readings given by `f`. -/
def okEnv (f : Nat → Reading) : Nat → IterEvent :=
  fun i => IterEvent.ok (f i)

/-- The raw queue-drop readings of end-to-end scenario C: `[100, 130, 125]`
(a hardware reset between iterations 2 and 3). -/
def scenarioC : Nat → Reading :=
  fun i => ⟨0, if i = 0 then 100 else if i = 1 then 130 else 125⟩

/-- Environment for a run whose second iteration's counter read raises. -/
def badReadEnv : Nat → IterEvent :=
  fun i => if i = 1 then IterEvent.readError else IterEvent.ok ⟨0, 0⟩

/-- Environment for a run interrupted (Ctrl+C) during the second iteration's
sleep. -/
def interruptEnv : Nat → IterEvent :=
  fun i => if i = 1 then IterEvent.interrupt ⟨5, 5⟩ else IterEvent.ok ⟨1, 1⟩

/-! ### The all-queues watch iteration (lines 424-453) -/

/-- The counters read by one all-queues watch iteration: the port egress drop
counter and the eight per-queue drop counters (lines 417-433; the loop
`for qid in range(8)` always produces exactly 8 entries). -/
structure AllQReading where
  eg_drop : Int
  q_drops : List Int
deriving Repr, DecidableEq

/-- One emitted all-queues row (lines 444-453), restricted to the drop,
delta, sum and attribution fields. -/
structure AllQRow where
  eg_drop : Int
  d_eg_drop : Int
  q_drops : List Int
  d_q_drops : List Int
  sum_d_q : Int
  d_unattributed : Int
deriving Repr, DecidableEq

/-- The delta/attribution computation of one all-queues iteration
(lines 420-422 and 435-442):
`d_q_drops = [0]*8` on the first iteration, else
`[max(0, a - b) for a, b in zip(q_drops, prev_q_drops)]`;
`sum_d_q = sum(d_q_drops)`;
`d_unattributed = max(0, d_eg_drop - sum_d_q)`. -/
def allQueuesStep (prev_eg : Option Int) (prev_q : Option (List Int))
    (r : AllQReading) : AllQRow × Option Int × Option (List Int) :=
  let d_eg := match prev_eg with
    | none => 0
    | some p => max 0 (r.eg_drop - p)
  let d_qs := match prev_q with
    | none => List.replicate 8 (0 : Int)
    | some p => (r.q_drops.zip p).map (fun ab => max 0 (ab.1 - ab.2))
  let sum_d_q := d_qs.sum
  let d_un := max 0 (d_eg - sum_d_q)
  (⟨r.eg_drop, d_eg, r.q_drops, d_qs, sum_d_q, d_un⟩, some r.eg_drop, some r.q_drops)

/-- The `pg_queue` key passed to the queue counter read of each single-queue
watch iteration (line 455): `qkey = _map_queue_key(pg_queue, egress_qids)`.
The all-queues branch does the same per queue (line 429). -/
def watchQueueCounterKey (pg_queue : Int) (egress_qids : List Int) : Int :=
  _map_queue_key pg_queue egress_qids

/-! ### The bulk reset sweep (`--mode reset` without `--dev-port`,
lines 171-248) -/

/-- The `--scope` argument. -/
inductive Scope where
  | port
  | queue
deriving Repr, DecidableEq

/-- Which hardware operations succeed for each device port during the bulk
reset sweep:
  * `setPipeOk dp` — `root.set_pipe(pipe)` (line 194) does not raise;
  * `portSchedModOk dp` — `port_sched_cfg.mod(dev_port=dp, max_rate_enable=False)`
    (line 199) does not raise;
  * `portCfg dp` — the result of `tf1.tm.port.cfg.get` (line 207): `none` if
    it raises, otherwise `some (pg_id, egress_qid_queues)`.
The per-queue `queue_sched_cfg.mod` failures (lines 229-239) are swallowed by
`except: pass` and cannot influence the counts, so they are not modelled. -/
structure PortUniverse where
  setPipeOk : Nat → Bool
  portSchedModOk : Nat → Bool
  portCfg : Nat → Option (Int × List Int)

/-- The per-port body of the bulk reset loop (lines 190-244), returning
`true` iff the port is counted as reset (`reset_count += 1`) and `false` iff
it is counted as skipped (`skipped_count += 1`):
  * an exception from `set_pipe` hits the outer `except` → skipped;
  * scope `port` and the shaping write fails (lines 198-202) → skipped;
  * the port-config read fails (lines 207-217) → reset if scope is `port`
    (the shaping write already succeeded), skipped otherwise;
  * `pg_id < 0` (lines 219-224) → reset if scope is `port`, else skipped;
  * otherwise → reset (queue-scope per-queue failures are swallowed). -/
def resetAllPortStep (scope : Scope) (u : PortUniverse) (dp : Nat) : Bool :=
  if u.setPipeOk dp = false then false
  else if scope = Scope.port ∧ u.portSchedModOk dp = false then false
  else
    match u.portCfg dp with
    | none => decide (scope = Scope.port)
    | some pc =>
      if pc.1 < 0 then decide (scope = Scope.port) else true

/-- The whole bulk reset sweep `for dp in range(0, 256)` (lines 182-244):
accumulates `(reset_count, skipped_count)` over all 256 device ports. -/
def resetAllCounts (scope : Scope) (u : PortUniverse) : Nat × Nat :=
  (List.range 256).foldl
    (fun acc dp =>
      cond (resetAllPortStep scope u dp) (acc.1 + 1, acc.2) (acc.1, acc.2 + 1))
    (0, 0)

/-- The universe of end-to-end scenario D read literally: ports 0-127 resolve
successfully, ports 128-255 fail the port-config read (`tf1.tm.port.cfg.get`
raises), while every `port_sched_cfg.mod` write succeeds. -/
def readFailUniverse : PortUniverse :=
  { setPipeOk := fun _ => true
    portSchedModOk := fun _ => true
    portCfg := fun dp => if dp < 128 then some (0, []) else none }

/-- A universe in which ports 128-255 are entirely absent: both the
port-shaping write and the port-config read fail for them. -/
def deadPortUniverse : PortUniverse :=
  { setPipeOk := fun _ => true
    portSchedModOk := fun dp => decide (dp < 128)
    portCfg := fun dp => if dp < 128 then some (0, []) else none }

/-! ### Single-target apply / reset runs (lines 250-373) -/

/-- A hardware access performed by a single-target run, in program order.
Reads carry the key(s) used; shaping writes also carry the written
`max_rate` (in TM units). -/
inductive HwEvent where
  | setPipe (pipe : Int)
  | portCfgRead (dev_port : Int)
  | portSchedCfgRead (dev_port : Int)
  | portSchedShapingRead (dev_port : Int)
  | portSchedCfgWrite (dev_port : Int)
  | portSchedShapingWrite (dev_port : Int) (max_rate : Int)
  | queueSchedCfgRead (pg_id pg_queue : Int)
  | queueSchedShapingRead (pg_id pg_queue : Int)
  | queueSchedCfgWrite (pg_id pg_queue : Int)
  | queueSchedShapingWrite (pg_id pg_queue : Int) (max_rate : Int)
deriving Repr, DecidableEq

/-- Whether an event mutates hardware state (`.mod` calls). -/
def HwEvent.isWrite : HwEvent → Bool
  | HwEvent.portSchedCfgWrite _ => true
  | HwEvent.portSchedShapingWrite _ _ => true
  | HwEvent.queueSchedCfgWrite _ _ => true
  | HwEvent.queueSchedShapingWrite _ _ _ => true
  | _ => false

/-- The fatal exits of a single-target run:
`missingDevPort` = `SystemExit` at line 252, `pgUnresolved` = `RuntimeError`
at line 271, `missingRate` = `SystemExit` at line 289. -/
inductive FatalError where
  | missingDevPort
  | pgUnresolved
  | missingRate
deriving Repr, DecidableEq

/-- The CLI arguments relevant to the single-target runs.  The Python
`--max-gbps`/`--max-mbps` arguments are floats; we model them as exact
rationals, which agrees with the float computation on all inputs whose
products are exactly representable and is the only idealization made. -/
structure Args where
  dev_port : Option Int
  queue : Int
  scope : Scope
  max_bps : Option Int
  max_gbps : Option ℚ
  max_mbps : Option ℚ

/-- Python `int(x)` on a rational: truncation toward zero, i.e. `Int.tdiv`
of numerator by denominator. -/
def pyInt (q : ℚ) : Int :=
  Int.tdiv q.num (q.den : Int)

/-- The rate selection of apply mode (lines 282-287):
`max_bps = args.max_bps`; if that is `None` and `--max-gbps` is given,
`max_bps = int(args.max_gbps * 1_000_000_000)`; else if `--max-mbps` is
given, `max_bps = int(args.max_mbps * 1_000_000)`; else `None`. -/
def computeMaxBps (max_bps : Option Int) (max_gbps max_mbps : Option ℚ) :
    Option Int :=
  match max_bps with
  | some b => some b
  | none =>
    match max_gbps with
    | some g => some (pyInt (g * 1000000000))
    | none =>
      match max_mbps with
      | some m => some (pyInt (m * 1000000))
      | none => none

/-- The apply-mode run (lines 250-350), as the sequence of hardware accesses
it performs and its fatal error, if any.  `resolve dp` is the hardware's
answer to `_get_pg_mapping` (line 269): `(pg_id, pg_port_nr,
egress_qid_queues)`.  Control flow in program order:
`--dev-port` check (line 252) → `set_pipe` (line 262) → port-cfg read
(line 269) → `pg_id < 0` check (line 271) → rate selection and its
`SystemExit` (lines 282-289) → current-config reads (lines 293-302) →
the two shaping writes (lines 313-335) → confirmation reads (lines 337-346).
Note the queue-scope branch keys all four queue-table accesses with the raw
`pg_queue` (`args.queue`), not with `_map_queue_key`. -/
def applyRun (a : Args) (resolve : Int → Int × Int × List Int) :
    List HwEvent × Option FatalError :=
  match a.dev_port with
  | none => ([], some FatalError.missingDevPort)
  | some dp =>
    let pipe := Int.fdiv dp 128
    let pg_id := (resolve dp).1
    let ev0 := [HwEvent.setPipe pipe, HwEvent.portCfgRead dp]
    if pg_id < 0 then (ev0, some FatalError.pgUnresolved)
    else
      match computeMaxBps a.max_bps a.max_gbps a.max_mbps with
      | none => (ev0, some FatalError.missingRate)
      | some max_bps =>
        let units := _rate_to_tm_units_bps max_bps
        match a.scope with
        | Scope.port =>
          (ev0 ++ [HwEvent.portSchedCfgRead dp, HwEvent.portSchedShapingRead dp,
                   HwEvent.portSchedCfgWrite dp,
                   HwEvent.portSchedShapingWrite dp units,
                   HwEvent.portSchedCfgRead dp, HwEvent.portSchedShapingRead dp],
           none)
        | Scope.queue =>
          (ev0 ++ [HwEvent.queueSchedCfgRead pg_id a.queue,
                   HwEvent.queueSchedShapingRead pg_id a.queue,
                   HwEvent.queueSchedCfgWrite pg_id a.queue,
                   HwEvent.queueSchedShapingWrite pg_id a.queue units,
                   HwEvent.queueSchedCfgRead pg_id a.queue,
                   HwEvent.queueSchedShapingRead pg_id a.queue],
           none)

/-- The single-target reset run (lines 250-271 and 352-373).  The
queue-scope branch maps the logical queue through `_map_queue_key`
(line 361) before writing and re-reading `queue_sched_cfg`. -/
def resetRun (a : Args) (resolve : Int → Int × Int × List Int) :
    List HwEvent × Option FatalError :=
  match a.dev_port with
  | none => ([], some FatalError.missingDevPort)
  | some dp =>
    let pipe := Int.fdiv dp 128
    let pg_id := (resolve dp).1
    let egress_qids := (resolve dp).2.2
    let ev0 := [HwEvent.setPipe pipe, HwEvent.portCfgRead dp]
    if pg_id < 0 then (ev0, some FatalError.pgUnresolved)
    else
      match a.scope with
      | Scope.port =>
        (ev0 ++ [HwEvent.portSchedCfgWrite dp, HwEvent.portSchedCfgRead dp], none)
      | Scope.queue =>
        let qkey := _map_queue_key a.queue egress_qids
        (ev0 ++ [HwEvent.queueSchedCfgWrite pg_id qkey,
                 HwEvent.queueSchedCfgRead pg_id qkey], none)

/-- Concrete arguments: apply mode with no rate flag at all. -/
def noRateArgs : Args :=
  { dev_port := some 8, queue := 0, scope := Scope.port,
    max_bps := none, max_gbps := none, max_mbps := none }

/-- A resolver universe where every port resolves (pg_id 1, empty qid map). -/
def resolveOk : Int → Int × Int × List Int :=
  fun _ => (1, 0, [])

/-- A non-identity egress-qid map (queue 0 maps to hardware key 3). -/
def qidMapC6 : List Int := [3, 2, 1, 0, 7, 6, 5, 4]

/-- Concrete arguments: queue-scope apply of 1 Mbps to logical queue 0. -/
def argsC6 : Args :=
  { dev_port := some 8, queue := 0, scope := Scope.queue,
    max_bps := some 1000000, max_gbps := none, max_mbps := none }

/-- A resolver universe whose egress-qid map is `qidMapC6` (pg_id 1). -/
def resolveC6 : Int → Int × Int × List Int :=
  fun _ => (1, 0, qidMapC6)

/-! ## Theorems -/

section BasicChecks

example : _rate_to_tm_units_bps 10000000000 = 10000000 := by decide
example : _rate_to_tm_units_bps (-5) = 0 := by decide
example : _map_queue_key 0 [3, 2, 1, 0] = 3 := by decide
example : _map_queue_key 5 [3, 2, 1, 0] = 5 := by decide
example : _map_queue_key 2 [] = 2 := by decide

end BasicChecks

/-- C3: `_map_queue_key i m` returns `m[i]` whenever `0 ≤ i < len m`,
returns `i` when `m` is empty, and returns `i` when `i ≥ len m`
(identity fallback). -/
theorem C3_map_queue_key_spec :
    (∀ (i : Int) (m : List Int) (h0 : 0 ≤ i) (h1 : i.toNat < m.length),
        _map_queue_key i m = m.get ⟨i.toNat, h1⟩) ∧
    (∀ i : Int, _map_queue_key i [] = i) ∧
    (∀ (i : Int) (m : List Int), (m.length : Int) ≤ i → _map_queue_key i m = i) := by
  refine ⟨?_, ?_, ?_⟩
  · intro i m h0 h1
    have hne : ¬ (m.isEmpty = true) := by
      cases m with
      | nil => simp at h1
      | cons a as => simp
    have hcond : 0 ≤ i ∧ i < (m.length : Int) := ⟨h0, by omega⟩
    unfold _map_queue_key
    rw [if_neg hne, if_pos hcond, List.getD_eq_getElem m i h1, List.get_eq_getElem]
  · intro i
    simp [_map_queue_key]
  · intro i m hlen
    by_cases he : m.isEmpty
    · simp [_map_queue_key, he]
    · have hcond : ¬ (0 ≤ i ∧ i < (m.length : Int)) := by omega
      simp [_map_queue_key, he, hcond]

/-- Witness for C3 at concrete inputs. -/
theorem C3_map_queue_key_spec_witness :
    _map_queue_key 1 [3, 2, 1, 0] = 2 ∧ _map_queue_key 7 [3, 2, 1, 0] = 7 := by
  constructor
  · have h := C3_map_queue_key_spec.1 1 [3, 2, 1, 0] (by decide) (by decide)
    simpa using h
  · have h := C3_map_queue_key_spec.2.2 7 [3, 2, 1, 0] (by decide)
    simpa using h

/-- C5: the rate converter floors non-negative rates by 1000, clamps negative
rates to 0, and is monotonically non-decreasing. -/
theorem C5_rate_converter_spec :
    (∀ r : Int, 0 ≤ r → _rate_to_tm_units_bps r = Int.fdiv r 1000) ∧
    (∀ r : Int, r < 0 → _rate_to_tm_units_bps r = 0) ∧
    (∀ r s : Int, r ≤ s → _rate_to_tm_units_bps r ≤ _rate_to_tm_units_bps s) := by
  have hfd : ∀ a : Int, Int.fdiv a 1000 = a / 1000 := fun a =>
    Int.fdiv_eq_ediv a (by decide)
  refine ⟨?_, ?_, ?_⟩
  · intro r hr
    have hnn : 0 ≤ Int.fdiv r 1000 := Int.fdiv_nonneg hr (by decide)
    simpa [_rate_to_tm_units_bps] using max_eq_right hnn
  · intro r hr
    have hneg : Int.fdiv r 1000 < 0 := Int.fdiv_neg' hr (by decide)
    simp only [_rate_to_tm_units_bps]
    omega
  · intro r s hrs
    have h1 : Int.fdiv r 1000 ≤ Int.fdiv s 1000 := by
      rw [hfd, hfd]
      exact Int.ediv_le_ediv (by decide) hrs
    simp only [_rate_to_tm_units_bps]
    omega

/-- Witness for C5 at concrete inputs (10 Gbps, a negative rate, two ordered
rates). -/
theorem C5_rate_converter_spec_witness :
    _rate_to_tm_units_bps 10000000000 = Int.fdiv 10000000000 1000 ∧
    _rate_to_tm_units_bps (-7) = 0 ∧
    _rate_to_tm_units_bps 1500 ≤ _rate_to_tm_units_bps 2500 :=
  ⟨C5_rate_converter_spec.1 10000000000 (by decide),
   C5_rate_converter_spec.2.1 (-7) (by decide),
   C5_rate_converter_spec.2.2 1500 2500 (by decide)⟩

/-- C2: in every all-queues iteration the emitted `d_unattributed` equals
`max(0, d_egress_drop - Σ d_queue_drop)`, is never negative, and is exactly 0
whenever the per-queue deltas sum to at least the port delta; the delta
vector has 8 entries (given the 8 readings the loop always produces). -/
theorem C2_unattributed_spec :
    ∀ (pe : Option Int) (pq : Option (List Int)) (r : AllQReading),
      ((allQueuesStep pe pq r).1.d_unattributed
          = max 0 ((allQueuesStep pe pq r).1.d_eg_drop
              - ((allQueuesStep pe pq r).1.d_q_drops).sum)) ∧
      0 ≤ (allQueuesStep pe pq r).1.d_unattributed ∧
      ((allQueuesStep pe pq r).1.d_eg_drop ≤ ((allQueuesStep pe pq r).1.d_q_drops).sum →
        (allQueuesStep pe pq r).1.d_unattributed = 0) ∧
      (pq = none → ((allQueuesStep pe pq r).1.d_q_drops).length = 8) ∧
      (∀ p, pq = some p → p.length = 8 → r.q_drops.length = 8 →
        ((allQueuesStep pe pq r).1.d_q_drops).length = 8) := by
  intro pe pq r
  refine ⟨rfl, le_max_left 0 _, ?_, ?_, ?_⟩
  · intro hle
    have h1 : (allQueuesStep pe pq r).1.d_unattributed
        = max 0 ((allQueuesStep pe pq r).1.d_eg_drop
            - ((allQueuesStep pe pq r).1.d_q_drops).sum) := rfl
    rw [h1]
    exact max_eq_left (by omega)
  · intro hpq
    subst hpq
    simp [allQueuesStep]
  · intro p hpq hp hr
    subst hpq
    simp [allQueuesStep, List.length_zip, hp, hr]

/-- Witness for C2 at a concrete iteration: previous queue drops
`[10,10,10,10,10,10,10,10]`, current `[15,12,10,10,10,10,10,10]`, port delta
5 (readings 100 → 105): the per-queue deltas sum to 7 ≥ 5, so the emitted
unattributed value is 0 and non-negative. -/
theorem C2_unattributed_spec_witness :
    (allQueuesStep (some 100) (some [10, 10, 10, 10, 10, 10, 10, 10])
        ⟨105, [15, 12, 10, 10, 10, 10, 10, 10]⟩).1.d_unattributed = 0 := by
  have h := C2_unattributed_spec (some 100) (some [10, 10, 10, 10, 10, 10, 10, 10])
    ⟨105, [15, 12, 10, 10, 10, 10, 10, 10]⟩
  exact h.2.2.1 (by decide)

/-- Each element of the bulk reset sweep increments exactly one of the two
counters, so across any port list the counts sum to the list's length. -/
theorem resetAll_foldl_sum (g : Nat → Bool) :
    ∀ (l : List Nat) (acc : Nat × Nat),
      ((l.foldl (fun acc dp =>
          cond (g dp) (acc.1 + 1, acc.2) (acc.1, acc.2 + 1)) acc).1
        + (l.foldl (fun acc dp =>
          cond (g dp) (acc.1 + 1, acc.2) (acc.1, acc.2 + 1)) acc).2)
        = acc.1 + acc.2 + l.length := by
  intro l
  induction l with
  | nil => intro acc; simp
  | cons hd tl ih =>
    intro acc
    cases hg : g hd
    · simp only [List.foldl_cons, hg, cond_false, List.length_cons]
      rw [ih]
      omega
    · simp only [List.foldl_cons, hg, cond_true, List.length_cons]
      rw [ih]
      omega

set_option maxRecDepth 8000 in
/-- C4 (amended): the bulk reset sweep attempts all 256 ports and counts each
exactly once (`resetCount + skippedCount = 256` in every universe, for both
scopes).  In the universe where ports 128-255 are entirely dead (their
port-shaping write fails too) the port-scope sweep returns `(128, 128)`; in
the universe of the claim read literally — only the port-config *read* fails
for ports 128-255, the shaping write succeeds — a read failure after a
successful shaping write is counted as *reset* (line 214), so the sweep
returns `(256, 0)`. -/
theorem C4_resetAll_amended :
    (∀ (scope : Scope) (u : PortUniverse),
        (resetAllCounts scope u).1 + (resetAllCounts scope u).2 = 256) ∧
    resetAllCounts Scope.port deadPortUniverse = (128, 128) ∧
    resetAllCounts Scope.port readFailUniverse = (256, 0) := by
  refine ⟨?_, ?_, ?_⟩
  · intro scope u
    have h := resetAll_foldl_sum (resetAllPortStep scope u) (List.range 256) (0, 0)
    simpa [resetAllCounts] using h
  · decide
  · decide

set_option maxRecDepth 8000 in
/-- Counterexample to C4 as stated: in the universe where ports 0-127 resolve
successfully and 128-255 fail (only) the port-config read, the port-scope
sweep does not return `(128, 128)` — it returns `(256, 0)`. -/
theorem C4_resetAll_counterexample :
    resetAllCounts Scope.port readFailUniverse ≠ (128, 128) := by
  decide

/-- The updated previous-sample state after any single-queue iteration is the
current reading, whatever the old state was. -/
theorem singleStepDeltas_snd (pe pq : Option Int) (r : Reading) :
    (singleStepDeltas pe pq r).2 = (some r.eg_drop, some r.q_drop) := by
  cases pq <;> rfl

/-- Unfolding one successful iteration of the watch loop. -/
theorem watchIterSingle_ok (env : Nat → IterEvent) (i n : Nat)
    (pe pq : Option Int) (r : Reading) (h : env i = IterEvent.ok r) :
    watchIterSingle env i (n + 1) pe pq =
      ((singleStepDeltas pe pq r).1 ::
         (watchIterSingle env (i + 1) n (some r.eg_drop) (some r.q_drop)).1,
       (watchIterSingle env (i + 1) n (some r.eg_drop) (some r.q_drop)).2) := by
  simp only [watchIterSingle, h, singleStepDeltas_snd]

/-- The first iteration of a run started with no baseline emits zero deltas
and seeds the previous-sample state with the first reading. -/
theorem watchIterSingle_ok_head (f : Nat → Reading) (i n : Nat) :
    watchIterSingle (okEnv f) i (n + 1) none none =
      (⟨(f i).eg_drop, 0, (f i).q_drop, 0⟩ ::
         (watchIterSingle (okEnv f) (i + 1) n
           (some (f i).eg_drop) (some (f i).q_drop)).1,
       (watchIterSingle (okEnv f) (i + 1) n
           (some (f i).eg_drop) (some (f i).q_drop)).2) := by
  rw [watchIterSingle_ok (okEnv f) i n none none (f i) rfl]
  rfl

/-- In an all-successful run whose previous-sample state holds reading `f i`,
the `k`-th emitted row carries reading `f (i+1+k)` and the
`max 0 (current - previous)` deltas against reading `f (i+k)`. -/
theorem watchIter_ok_getElem (f : Nat → Reading) :
    ∀ (n k i : Nat), k < n →
      (watchIterSingle (okEnv f) (i + 1) n
          (some (f i).eg_drop) (some (f i).q_drop)).1[k]? =
        some ⟨(f (i + 1 + k)).eg_drop,
              max 0 ((f (i + 1 + k)).eg_drop - (f (i + k)).eg_drop),
              (f (i + 1 + k)).q_drop,
              max 0 ((f (i + 1 + k)).q_drop - (f (i + k)).q_drop)⟩ := by
  intro n
  induction n with
  | zero => intro k i hk; exact absurd hk (Nat.not_lt_zero k)
  | succ n ih =>
    intro k i hk
    rw [watchIterSingle_ok (okEnv f) (i + 1) n _ _ (f (i + 1)) rfl]
    cases k with
    | zero =>
      simp [singleStepDeltas]
    | succ k =>
      simp only [List.getElem?_cons_succ]
      have h := ih k (i + 1) (by omega)
      have e1 : i + 1 + 1 + k = i + 1 + (k + 1) := by omega
      have e2 : i + 1 + k = i + (k + 1) := by omega
      rw [e1, e2] at h
      exact h

/-- Every row built by one iteration has non-negative deltas. -/
theorem singleStepDeltas_nonneg (pe pq : Option Int) (r : Reading) :
    0 ≤ (singleStepDeltas pe pq r).1.d_eg_drop ∧
    0 ≤ (singleStepDeltas pe pq r).1.d_q_drop := by
  cases pe <;> cases pq <;>
    constructor <;>
      first
        | exact le_refl 0
        | exact le_max_left 0 _

/-- Every row emitted by the watch loop, in any environment and from any
state, has non-negative deltas. -/
theorem watchIter_deltas_nonneg (env : Nat → IterEvent) :
    ∀ (n i : Nat) (pe pq : Option Int),
      ∀ row ∈ (watchIterSingle env i n pe pq).1,
        0 ≤ row.d_eg_drop ∧ 0 ≤ row.d_q_drop := by
  intro n
  induction n with
  | zero =>
    intro i pe pq row hrow
    simp [watchIterSingle] at hrow
  | succ n ih =>
    intro i pe pq row hrow
    cases henv : env i with
    | stop =>
      simp [watchIterSingle, henv] at hrow
    | readError =>
      simp [watchIterSingle, henv] at hrow
    | interrupt r =>
      simp only [watchIterSingle, henv, List.mem_singleton] at hrow
      subst hrow
      exact singleStepDeltas_nonneg pe pq r
    | ok r =>
      rw [watchIterSingle_ok env i n pe pq r henv] at hrow
      rcases List.mem_cons.mp hrow with h | h
      · subst h
        exact singleStepDeltas_nonneg pe pq r
      · exact ih (i + 1) (some r.eg_drop) (some r.q_drop) row h

/-- C1: in a bounded single-queue watch run in which every read succeeds, the
first emitted row's egress-drop and queue-drop deltas are both 0 (no prior
baseline), and every later row's deltas are `max(0, current - previous)`
against the immediately preceding reading; in any environment every emitted
delta is non-negative; and the scenario-C run over queue-drop readings
`[100, 130, 125]` emits queue-drop deltas `[0, 30, 0]`. -/
theorem C1_watch_deltas_spec :
    (∀ (f : Nat → Reading) (n : Nat), 0 < n →
        (watchRunSingle (okEnv f) n).rows[0]? =
          some ⟨(f 0).eg_drop, 0, (f 0).q_drop, 0⟩) ∧
    (∀ (f : Nat → Reading) (n k : Nat), k + 1 < n →
        (watchRunSingle (okEnv f) n).rows[k + 1]? =
          some ⟨(f (k + 1)).eg_drop,
                max 0 ((f (k + 1)).eg_drop - (f k).eg_drop),
                (f (k + 1)).q_drop,
                max 0 ((f (k + 1)).q_drop - (f k).q_drop)⟩) ∧
    (∀ (env : Nat → IterEvent) (n : Nat),
        ∀ row ∈ (watchRunSingle env n).rows,
          0 ≤ row.d_eg_drop ∧ 0 ≤ row.d_q_drop) ∧
    (watchRunSingle (okEnv scenarioC) 3).rows.map Row.d_q_drop = [0, 30, 0] := by
  refine ⟨?_, ?_, ?_, by decide⟩
  · intro f n hn
    cases n with
    | zero => exact absurd hn (by omega)
    | succ m =>
      show (watchIterSingle (okEnv f) 0 (m + 1) none none).1[0]? = _
      rw [watchIterSingle_ok_head]
      simp
  · intro f n k hk
    cases n with
    | zero => exact absurd hk (by omega)
    | succ m =>
      show (watchIterSingle (okEnv f) 0 (m + 1) none none).1[k + 1]? = _
      rw [watchIterSingle_ok_head]
      simp only [List.getElem?_cons_succ]
      have h := watchIter_ok_getElem f m k 0 (by omega)
      have e1 : 0 + 1 + k = k + 1 := by omega
      have e2 : 0 + k = k := by omega
      rw [e1, e2] at h
      simpa using h
  · intro env n row hrow
    exact watchIter_deltas_nonneg env n 0 none none row hrow

/-- Witness for C1: the scenario-C run's first row has zero deltas. -/
theorem C1_watch_deltas_spec_witness :
    (watchRunSingle (okEnv scenarioC) 3).rows[0]? =
      some ⟨(scenarioC 0).eg_drop, 0, (scenarioC 0).q_drop, 0⟩ :=
  C1_watch_deltas_spec.1 scenarioC 3 (by decide)

/-- If the reads of iterations `off..off+i-1` succeed and iteration `off+i`'s
read raises (below the remaining bound), the loop ends `crashed` with exactly
`i` rows emitted. -/
theorem watchIter_crash (env : Nat → IterEvent) :
    ∀ (n i off : Nat) (pe pq : Option Int), i < n →
      (∀ j, j < i → ∃ r, env (off + j) = IterEvent.ok r) →
      env (off + i) = IterEvent.readError →
      (watchIterSingle env off n pe pq).2 = Outcome.crashed ∧
      (watchIterSingle env off n pe pq).1.length = i := by
  intro n
  induction n with
  | zero => intro i off pe pq hi _ _; omega
  | succ n ih =>
    intro i off pe pq hi hok herr
    cases i with
    | zero =>
      simp only [Nat.add_zero] at herr
      simp [watchIterSingle, herr]
    | succ i =>
      obtain ⟨r, hr⟩ := hok 0 (by omega)
      simp only [Nat.add_zero] at hr
      rw [watchIterSingle_ok env off n pe pq r hr]
      have hok2 : ∀ j, j < i → ∃ r, env (off + 1 + j) = IterEvent.ok r := by
        intro j hj
        have h := hok (j + 1) (by omega)
        rwa [show off + (j + 1) = off + 1 + j by omega] at h
      have herr2 : env (off + 1 + i) = IterEvent.readError := by
        rwa [show off + (i + 1) = off + 1 + i by omega] at herr
      have h := ih i (off + 1) (some r.eg_drop) (some r.q_drop) (by omega) hok2 herr2
      exact ⟨h.1, by simp [h.2]⟩

/-- Counterexample to C8 as stated: in a 3-iteration bounded single-queue run
whose second iteration's counter read raises (all other reads succeed), the
loop terminates abnormally because of that one bad read: only the first row
is emitted and the run ends `crashed`. -/
theorem C8_bad_read_counterexample :
    (watchRunSingle badReadEnv 3).outcome = Outcome.crashed ∧
    (watchRunSingle badReadEnv 3).rows.length = 1 := by
  decide

/-- C8 (amended): the watch loop body has no exception handling: if the reads
of iterations `0..i-1` succeed and iteration `i`'s counter read raises (with
`i` below the iteration bound), the run terminates abnormally at iteration
`i`, having emitted exactly the `i` earlier rows and none after. -/
theorem C8_bad_read_amended :
    ∀ (env : Nat → IterEvent) (n i : Nat), i < n →
      (∀ j, j < i → ∃ r, env j = IterEvent.ok r) →
      env i = IterEvent.readError →
      (watchRunSingle env n).outcome = Outcome.crashed ∧
      (watchRunSingle env n).rows.length = i := by
  intro env n i hi hok herr
  have hok0 : ∀ j, j < i → ∃ r, env (0 + j) = IterEvent.ok r := by
    intro j hj
    simpa using hok j hj
  have herr0 : env (0 + i) = IterEvent.readError := by simpa using herr
  exact watchIter_crash env n i 0 none none hi hok0 herr0

/-- Witness for the amended C8 at the concrete bad-read run. -/
theorem C8_bad_read_amended_witness :
    (watchRunSingle badReadEnv 3).outcome = Outcome.crashed ∧
    (watchRunSingle badReadEnv 3).rows.length = 1 :=
  C8_bad_read_amended badReadEnv 3 1 (by decide)
    (fun j hj => by
      have hj0 : j = 0 := by omega
      subst hj0
      exact ⟨⟨0, 0⟩, rfl⟩)
    (by decide)

/-- Counterexample to C9 as stated: a watch run cancelled by an interrupt
during the second iteration's sleep exits with the log sink still open: the
underlying file `close()` is performed zero times, not exactly once. -/
theorem C9_close_counterexample :
    (watchRunSingle interruptEnv 5).outcome = Outcome.cancelled ∧
    (watchRunSingle interruptEnv 5).writer.closes = 0 ∧
    (watchRunSingle interruptEnv 5).writer.log_file = some () := by
  decide

/-- C9 (amended): on the bound-reached exit paths (duration or iteration
count) the sink is closed exactly once, and `TeeWriter.close` is idempotent,
so the sink is never closed twice; but on a crashed or cancelled exit the
`_writer.close()` at the end of `main` is skipped and the sink is left
open. -/
theorem C9_close_amended :
    (∀ (env : Nat → IterEvent) (n : Nat),
        (watchRunSingle env n).outcome = Outcome.completed →
        (watchRunSingle env n).writer.closes = 1 ∧
        (watchRunSingle env n).writer.log_file = none) ∧
    (∀ (env : Nat → IterEvent) (n : Nat),
        (watchRunSingle env n).outcome ≠ Outcome.completed →
        (watchRunSingle env n).writer.closes = 0 ∧
        (watchRunSingle env n).writer.log_file = some ()) ∧
    (∀ w : TeeWriter, TeeWriter.close (TeeWriter.close w) = TeeWriter.close w) := by
  refine ⟨?_, ?_, ?_⟩
  · intro env n hout
    have hres : (watchIterSingle env 0 n none none).2 = Outcome.completed := hout
    simp [watchRunSingle, hres, TeeWriter.close, TeeWriter.opened]
  · intro env n hout
    have hne : (watchIterSingle env 0 n none none).2 ≠ Outcome.completed := hout
    cases hres : (watchIterSingle env 0 n none none).2 with
    | completed => exact absurd hres hne
    | crashed => simp [watchRunSingle, hres, TeeWriter.opened]
    | cancelled => simp [watchRunSingle, hres, TeeWriter.opened]
  · intro w
    cases h : w.log_file <;> simp [TeeWriter.close, h]

/-- Witness for the amended C9: a bound-reached 3-iteration run closes the
sink exactly once. -/
theorem C9_close_amended_witness :
    (watchRunSingle (okEnv scenarioC) 3).writer.closes = 1 ∧
    (watchRunSingle (okEnv scenarioC) 3).writer.log_file = none :=
  C9_close_amended.1 (okEnv scenarioC) 3 (by decide)

/-- C6: evaluation of the code at the failing input.  On a port whose
egress-qid map sends logical queue 0 to hardware key 3 (pg_id 1), the
queue-key mapper and the watch-mode counter read use key 3, and the
single-target reset writes `queue_sched_cfg` with key 3 — but the apply-mode
run writes `queue_sched_cfg` and `queue_sched_shaping` with the raw logical
index 0 and never touches key 3: apply-then-reset on the same logical queue
target different hardware rows. -/
theorem C6_apply_uses_raw_queue_key :
    _map_queue_key 0 qidMapC6 = 3 ∧
    watchQueueCounterKey 0 qidMapC6 = 3 ∧
    HwEvent.queueSchedCfgWrite 1 3 ∈ (resetRun argsC6 resolveC6).1 ∧
    HwEvent.queueSchedCfgWrite 1 0 ∈ (applyRun argsC6 resolveC6).1 ∧
    HwEvent.queueSchedShapingWrite 1 0 (_rate_to_tm_units_bps 1000000)
      ∈ (applyRun argsC6 resolveC6).1 ∧
    ¬ HwEvent.queueSchedCfgWrite 1 3 ∈ (applyRun argsC6 resolveC6).1 ∧
    ¬ HwEvent.queueSchedShapingWrite 1 3 (_rate_to_tm_units_bps 1000000)
      ∈ (applyRun argsC6 resolveC6).1 := by
  decide

/-- Counterexample to C7 as stated: invoking apply mode with no rate flag
does exit fatally with the missing-rate error, but only after a hardware
access: the run's event list already contains the port-group-mapping
hardware read (`tf1.tm.port.cfg.get(from_hw=True)`, line 269) when the
missing-rate `SystemExit` is raised at line 289. -/
theorem C7_missing_rate_counterexample :
    (applyRun noRateArgs resolveOk).2 = some FatalError.missingRate ∧
    HwEvent.portCfgRead 8 ∈ (applyRun noRateArgs resolveOk).1 := by
  decide

/-- C7 (amended): apply mode with none of `--max-gbps`, `--max-mbps`,
`--max-bps` always exits fatally with the missing-rate `SystemExit`, and on
every fatal exit of the apply run no hardware *write* has been performed; but
the missing-rate failure is reported only after the pipe selection and the
port-group-mapping hardware read, which precede it in program order. -/
theorem C7_missing_rate_amended :
    (∀ (a : Args) (resolve : Int → Int × Int × List Int) (dp : Int),
        a.dev_port = some dp → 0 ≤ (resolve dp).1 →
        a.max_bps = none → a.max_gbps = none → a.max_mbps = none →
        applyRun a resolve =
          ([HwEvent.setPipe (Int.fdiv dp 128), HwEvent.portCfgRead dp],
           some FatalError.missingRate)) ∧
    (∀ (a : Args) (resolve : Int → Int × Int × List Int),
        (applyRun a resolve).2 ≠ none →
        ∀ e ∈ (applyRun a resolve).1, e.isWrite = false) := by
  constructor
  · intro a resolve dp hdev hpg hb hg hm
    simp only [applyRun, hdev]
    rw [if_neg (by omega : ¬ (resolve dp).1 < 0)]
    simp [hb, hg, hm, computeMaxBps]
  · intro a resolve hfail e he
    cases hdev : a.dev_port with
    | none =>
      simp only [applyRun, hdev] at he
      exact absurd he (List.not_mem_nil e)
    | some dp =>
      by_cases hpg : (resolve dp).1 < 0
      · simp only [applyRun, hdev, if_pos hpg, List.mem_cons,
          List.mem_singleton] at he
        rcases he with h | h | h
        · subst h; rfl
        · subst h; rfl
        · exact absurd h (List.not_mem_nil e)
      · cases hmb : computeMaxBps a.max_bps a.max_gbps a.max_mbps with
        | none =>
          simp only [applyRun, hdev, if_neg hpg, hmb, List.mem_cons,
            List.mem_singleton] at he
          rcases he with h | h | h
          · subst h; rfl
          · subst h; rfl
          · exact absurd h (List.not_mem_nil e)
        | some v =>
          exfalso
          apply hfail
          simp only [applyRun, hdev, if_neg hpg, hmb]
          cases hsc : a.scope <;> simp

/-- Witness for the amended C7 at the concrete no-rate invocation. -/
theorem C7_missing_rate_amended_witness :
    applyRun noRateArgs resolveOk =
      ([HwEvent.setPipe (Int.fdiv 8 128), HwEvent.portCfgRead 8],
       some FatalError.missingRate) :=
  C7_missing_rate_amended.1 noRateArgs resolveOk 8 rfl (by decide) rfl rfl rfl

/-- C10: when several rate flags are supplied the apply run does not fail;
the effective rate is selected with fixed precedence: `--max-bps` first,
else `--max-gbps` times 10^9 truncated to an integer, else `--max-mbps`
times 10^6 truncated to an integer. -/
theorem C10_rate_precedence :
    (∀ (v : Int) (g m : Option ℚ), computeMaxBps (some v) g m = some v) ∧
    (∀ (g : ℚ) (m : Option ℚ),
        computeMaxBps none (some g) m = some (pyInt (g * 1000000000))) ∧
    (∀ m : ℚ, computeMaxBps none none (some m) = some (pyInt (m * 1000000))) ∧
    (∀ (a : Args) (resolve : Int → Int × Int × List Int) (dp : Int) (v : Int),
        a.dev_port = some dp → 0 ≤ (resolve dp).1 →
        computeMaxBps a.max_bps a.max_gbps a.max_mbps = some v →
        (applyRun a resolve).2 = none) := by
  refine ⟨fun v g m => rfl, fun g m => rfl, fun m => rfl, ?_⟩
  intro a resolve dp v hdev hpg hmb
  simp only [applyRun, hdev]
  rw [if_neg (by omega : ¬ (resolve dp).1 < 0), hmb]
  cases hsc : a.scope <;> simp

/-- Witness for C10: all three flags supplied at once — the explicit bps
value wins and the run does not fail. -/
theorem C10_rate_precedence_witness :
    computeMaxBps (some 5) (some 2) (some 3) = some 5 ∧
    (applyRun { dev_port := some 8, queue := 0, scope := Scope.port,
                max_bps := some 5, max_gbps := some 2, max_mbps := some 3 }
        resolveOk).2 = none :=
  ⟨C10_rate_precedence.1 5 (some 2) (some 3),
   C10_rate_precedence.2.2.2
     { dev_port := some 8, queue := 0, scope := Scope.port,
       max_bps := some 5, max_gbps := some 2, max_mbps := some 3 }
     resolveOk 8 5 rfl (by decide) rfl⟩

end TmShapeQueue
